import Mathlib

/-!
# Verification of the equity-analyst core (scorers + debate orchestrator)

Shallow embedding of the decision core of the repository:

* `src/agents/fundamental_agent.py` — `analyze_fundamentals`
* `src/agents/valuation_agent.py`   — `analyze_stock` (the "technical scorer")
* `src/agents/orchestration_agent.py` — `DebateSimulator.run_debate`

Python floats are modelled as exact rationals (`ℚ`), Python `round` as
round-half-to-even (`pyRoundInt`/`pyRound`), Python dicts as records with
`Option` fields for possibly-absent keys, and the scorers' returned dicts as a
`ScoreOutcome` sum (`ok report | fail error`): the Python functions return the
`{"success": false, "error": ...}` record instead of raising, which the sum
type models (no exception escapes the embedded computations).
-/

namespace EquityAnalyst

/-- Python `round(x)` (banker's rounding, round-half-to-even) on a rational. -/
def pyRoundInt (q : ℚ) : ℤ :=
  if q - ⌊q⌋ = 1/2 then (if ⌊q⌋ % 2 = 0 then ⌊q⌋ else ⌊q⌋ + 1) else round q

/-- Python `round(x, n)`: round to `n` decimal places, half-to-even. -/
def pyRound (q : ℚ) (n : ℕ) : ℚ := (pyRoundInt (q * 10 ^ n) : ℚ) / 10 ^ n

/-- Left-pad a digit string with zeros to length `n`. -/
def padZeros (s : String) (n : ℕ) : String :=
  String.mk (List.replicate (n - s.length) '0') ++ s

/-- Python `"{:.nf}".format(q)`: fixed-point decimal rendering of a rational. -/
def fmtDec (q : ℚ) (n : ℕ) : String :=
  let k := pyRoundInt (q * 10 ^ n)
  let a := k.natAbs
  (if k < 0 then "-" else "") ++ toString (a / 10 ^ n) ++
    (if n = 0 then "" else "." ++ padZeros (toString (a % 10 ^ n)) n)

/-- A value stored in a report's `metrics` dict.  The Python code stores either
a bare number (`num`), a string formatted as `"{:.1f}%"` (`pct`), or a plain
string. -/
inductive MetricVal where
  | num (q : ℚ)
  | pct (q : ℚ)
  | str (s : String)
deriving DecidableEq

/-- `float(str(v).replace('%',''))` as used by the orchestrator on a metric
value.  A `pct` value was stored as its 1-decimal rendering, so converting the
display string back yields the value rounded to one decimal.  (Non-numeric
`str` values would make Python's `float()` raise; the orchestrator only ever
converts the keys `"RSI"` and `"P/E"`, which are never strings in the reports
the scorers build, so we map `str` to 0.) -/
def MetricVal.toFloat : MetricVal → ℚ
  | .num q => q
  | .pct q => pyRound q 1
  | .str _ => 0

/-- One entry of a scorer's `scoring_log`. -/
structure ScoringEntry where
  metric : String
  points : ℤ
  desc : String
deriving DecidableEq

/-- The `company_info` sub-record of the fundamental report. -/
structure CompanyInfo where
  name : Option String
  sector : Option String
  industry : Option String
  market_cap : Option ℚ
  current_price : Option ℚ
deriving DecidableEq

/-- A successful scorer report (the `success: true` dict shape of both
scorers).  `scoring_log` is `Option`al because the fundamental scorer's dict
has no such key, while the technical scorer's does. -/
structure Report where
  symbol : String
  signal : String
  confidence : ℤ
  score : ℤ
  reasoning : String
  scoring_log : Option (List ScoringEntry)
  metrics : List (String × MetricVal)
  company_info : Option CompanyInfo
deriving DecidableEq

/-- A scorer's returned dict: either the success shape or the
`{"success": false, "error": ...}` shape.  Both are returned values, never
exceptions. -/
inductive ScoreOutcome where
  | ok (r : Report)
  | fail (error : String)
deriving DecidableEq

def ScoreOutcome.success : ScoreOutcome → Bool
  | .ok _ => true
  | .fail _ => false

def ScoreOutcome.score? : ScoreOutcome → Option ℤ
  | .ok r => some r.score
  | .fail _ => none

def ScoreOutcome.signal? : ScoreOutcome → Option String
  | .ok r => some r.signal
  | .fail _ => none

def ScoreOutcome.confidence? : ScoreOutcome → Option ℤ
  | .ok r => some r.confidence
  | .fail _ => none

/-- The `scoring_log` of a successful outcome: `some none` means the report
succeeded but carries no `scoring_log` key. -/
def ScoreOutcome.log? : ScoreOutcome → Option (Option (List ScoringEntry))
  | .ok r => some r.scoring_log
  | .fail _ => none

/-! ## Fundamental scorer (`src/agents/fundamental_agent.py`) -/

/-- The fields of the `yfinance` `info` dict read by `analyze_fundamentals`.
Absent keys (`info.get(...) is None`) are `none`. -/
structure FundInfo where
  trailingPE : Option ℚ := none
  forwardPE : Option ℚ := none
  debtToEquity : Option ℚ := none
  returnOnEquity : Option ℚ := none
  profitMargins : Option ℚ := none
  revenueGrowth : Option ℚ := none
  earningsGrowth : Option ℚ := none
  freeCashflow : Option ℚ := none
  marketCap : Option ℚ := none
  currentPrice : Option ℚ := none
  regularMarketPrice : Option ℚ := none
  longName : Option String := none
  shortName : Option String := none
  sector : Option String := none
  industry : Option String := none
deriving DecidableEq

/-- Python `a or b` on optional numbers: `None` and `0` are falsy. -/
def pyOrQ (a b : Option ℚ) : Option ℚ :=
  match a with
  | some q => if q = 0 then b else some q
  | none => b

/-- Python `a or b` on optional strings: `None` and `""` are falsy. -/
def pyOrStr (a b : Option String) : Option String :=
  match a with
  | some s => if s = "" then b else some s
  | none => b

/-- The rule-evaluation body of `analyze_fundamentals` (lines 35–110): starting
from the neutral baseline 50, each block fires iff its metric is present, and
accumulates `(score, reasoning_parts, metrics_found)` in source order
(ROE, margins, D/E, P/E, revenue growth). -/
def fundEval (i : FundInfo) : ℤ × List String × List (String × MetricVal) :=
  let s0 : ℤ := 50
  -- QUALITY CHECK: ROE
  let (s1, p1, m1) :=
    match i.returnOnEquity with
    | none => (s0, ([] : List String), ([] : List (String × MetricVal)))
    | some roe =>
      let roePct := roe * 100
      let m := [("ROE", MetricVal.pct roePct)]
      if roePct > 15 then
        (s0 + 15, ["High Quality: Strong ROE of " ++ fmtDec roePct 1 ++ "% (>15%)"], m)
      else if roePct < 8 then
        (s0 - 10, ["Low Quality: Weak ROE of " ++ fmtDec roePct 1 ++ "%"], m)
      else
        (s0, ["Moderate ROE of " ++ fmtDec roePct 1 ++ "%"], m)
  -- QUALITY CHECK: net margins
  let (s2, p2, m2) :=
    match i.profitMargins with
    | none => (s1, ([] : List String), ([] : List (String × MetricVal)))
    | some pm =>
      let marginPct := pm * 100
      let m := [("Net Margin", MetricVal.pct marginPct)]
      if marginPct > 15 then
        (s1 + 10, ["High net profit margins (" ++ fmtDec marginPct 1 ++ "%)"], m)
      else if marginPct < 5 then
        (s1 - 10, ["Thin profit margins (" ++ fmtDec marginPct 1 ++ "%)"], m)
      else
        (s1, ([] : List String), m)
  -- SAFETY CHECK: debt
  let (s3, p3, m3) :=
    match i.debtToEquity with
    | none => (s2, ([] : List String), ([] : List (String × MetricVal)))
    | some de0 =>
      let de := if de0 > 10 then de0 / 100 else de0
      let m := [("D/E", MetricVal.num (pyRound de 2))]
      if de < 0.5 then
        (s2 + 10, ["Safety: Conservative debt levels (D/E: " ++ fmtDec de 2 ++ ")"], m)
      else if de > 1.5 then
        (s2 - 15, ["Risk: High leverage (D/E: " ++ fmtDec de 2 ++ ")"], m)
      else
        (s2, ["Manageable debt (D/E: " ++ fmtDec de 2 ++ ")"], m)
  -- VALUE CHECK: P/E
  let (s4, p4, m4) :=
    match pyOrQ i.trailingPE i.forwardPE with
    | none => (s3, ([] : List String), ([] : List (String × MetricVal)))
    | some pe =>
      let m := [("P/E", MetricVal.num (pyRound pe 2))]
      if pe < 0 then
        (s3 - 20, ["Risk: Company is currently loss-making"], m)
      else if pe < 15 then
        (s3 + 10, ["Value: Attractive valuation (P/E " ++ fmtDec pe 1 ++ ")"], m)
      else if pe > 50 then
        (s3 - 10, ["Expensive: High valuation premium (P/E " ++ fmtDec pe 1 ++ ")"], m)
      else
        (s3, ["Fair valuation (P/E " ++ fmtDec pe 1 ++ ")"], m)
  -- GROWTH CHECK
  let (s5, p5, m5) :=
    match i.revenueGrowth with
    | none => (s4, ([] : List String), ([] : List (String × MetricVal)))
    | some rg =>
      let growthPct := rg * 100
      let m := [("Rev Growth", MetricVal.pct growthPct)]
      if growthPct > 10 then
        (s4 + 10, ["Growth: Strong revenue expansion (" ++ fmtDec growthPct 1 ++ "%)"], m)
      else if growthPct < 0 then
        (s4 - 10, ["concern: Shrinking revenue (" ++ fmtDec growthPct 1 ++ "%)"], m)
      else
        (s4, ([] : List String), m)
  (s5, p1 ++ p2 ++ p3 ++ p4 ++ p5, m1 ++ m2 ++ m3 ++ m4 ++ m5)

/-- Assembly of the fundamental report (lines 112–138).  Note: `score` is
returned unclamped; only `confidence` is clamped to `[0,100]`; no
`scoring_log` key is emitted. -/
def fundReport (symbol : String) (i : FundInfo) : Report :=
  let (score, parts0, metrics) := fundEval i
  let signal := if 60 ≤ score then "BUY" else "SELL"
  let confidence := min 100 (max 0 score)
  let parts := if parts0 = [] then ["Insufficient data for fundamental analysis"] else parts0
  { symbol := symbol
    signal := signal
    confidence := confidence
    score := score
    reasoning := String.intercalate ". " parts ++ "."
    scoring_log := none
    metrics := metrics
    company_info := some
      { name := pyOrStr i.longName i.shortName
        sector := i.sector
        industry := i.industry
        market_cap := i.marketCap
        current_price := pyOrQ i.currentPrice i.regularMarketPrice } }

/-- `analyze_fundamentals(symbol)`: `info = none` models the
`not info or 'symbol' not in info` guard (provider returned no usable record);
otherwise the pure rule evaluation always succeeds. -/
def analyze_fundamentals (symbol : String) (info : Option FundInfo) : ScoreOutcome :=
  match info with
  | none => .fail ("Unable to fetch fundamental data for " ++ symbol)
  | some i => .ok (fundReport symbol i)

/-! ## Technical scorer (`src/agents/valuation_agent.py`)

The scoring section (lines 89–201) is a function of the derived indicators
computed in lines 34–87; we embed it as `techScore` over a `TechIndicators`
record, and the indicator derivation as `computeIndicators` over the raw daily
bars. -/

/-- The derived indicators of `analyze_stock` (lines 34–87).  `rsi_weekly` is
`none` when pandas would produce `NaN` (fewer than 15 weekly samples, or a
0/0 average-gain/average-loss ratio): every comparison against `NaN` is false,
so no RSI rule fires.  `volatility` is the annualized volatility in percent. -/
structure TechIndicators where
  current_price : ℚ
  sma_200 : ℚ
  sma_50 : ℚ
  rsi_weekly : Option ℚ
  volatility : ℚ
  return_1y : ℚ
  volume_ratio : ℚ
  accumulation : Bool
  max_drawdown : ℚ
  macd_bullish : Bool
deriving DecidableEq

/-- Trend rule (lines 96–108): each rule returns its total score delta, its
`scoring_log` entries and its `reasoning` sentences, exactly as the source
block appends them. -/
def trendRule (ind : TechIndicators) : ℤ × List ScoringEntry × List String :=
  if ind.current_price > ind.sma_200 then
    if ind.sma_50 > ind.sma_200 then
      (25,
       [⟨"Long-term Trend", 20, "Price above 200 DMA"⟩,
        ⟨"Trend Alignment", 5, "50 DMA > 200 DMA (Bullish)"⟩],
       ["Price is in a long-term uptrend (above 200 DMA)",
        "Bullish trend alignment (50 DMA > 200 DMA)"])
    else
      (20, [⟨"Long-term Trend", 20, "Price above 200 DMA"⟩],
       ["Price is in a long-term uptrend (above 200 DMA)"])
  else
    (-20, [⟨"Long-term Trend", -20, "Price below 200 DMA"⟩],
     ["Price is in a long-term downtrend (below 200 DMA)"])

/-- Weekly-RSI rule (lines 110–122). -/
def rsiRule (ind : TechIndicators) : ℤ × List ScoringEntry × List String :=
  match ind.rsi_weekly with
  | none => (0, [], [])
  | some r =>
    if 40 ≤ r ∧ r ≤ 70 then
      (10, [⟨"Momentum (RSI)", 10, "Healthy Weekly RSI (" ++ fmtDec r 1 ++ ")"⟩],
       ["Weekly RSI (" ++ fmtDec r 1 ++ ") is in a healthy range"])
    else if r > 70 then
      (-5, [⟨"Momentum (RSI)", -5, "Overbought Weekly RSI (" ++ fmtDec r 1 ++ ")"⟩],
       ["Weekly RSI (" ++ fmtDec r 1 ++ ") indicates overbought conditions"])
    else if r < 30 then
      (5, [⟨"Momentum (RSI)", 5, "Oversold Weekly RSI (" ++ fmtDec r 1 ++ ")"⟩],
       ["Weekly RSI (" ++ fmtDec r 1 ++ ") indicates oversold territory (potential value)"])
    else (0, [], [])

/-- Volatility rule (lines 124–132). -/
def volRule (ind : TechIndicators) : ℤ × List ScoringEntry × List String :=
  if ind.volatility < 20 then
    (10, [⟨"Volatility", 10, "Low Volatility (" ++ fmtDec ind.volatility 1 ++ "%)"⟩],
     ["Low volatility (" ++ fmtDec ind.volatility 1 ++ "%) suggests stability"])
  else if ind.volatility > 40 then
    (-10, [⟨"Volatility", -10, "High Volatility (" ++ fmtDec ind.volatility 1 ++ "%)"⟩],
     ["High volatility (" ++ fmtDec ind.volatility 1 ++ "%) adds risk"])
  else (0, [], [])

/-- Performance context (lines 134–138): reasoning only, no score delta. -/
def perfParts (ind : TechIndicators) : List String :=
  if ind.return_1y > 0 then
    ["Positive 1-year return of " ++ fmtDec ind.return_1y 1 ++ "%"]
  else
    ["Negative 1-year return of " ++ fmtDec ind.return_1y 1 ++ "%"]

/-- Volume-ratio rule (lines 141–144). -/
def volumeRule (ind : TechIndicators) : ℤ × List ScoringEntry × List String :=
  if ind.volume_ratio > 1.5 then
    (5, [⟨"Volume", 5, "High recent volume (" ++ fmtDec ind.volume_ratio 1 ++ "x avg)"⟩],
     ["Increased trading interest (volume " ++ fmtDec ind.volume_ratio 1 ++ "x average)"])
  else (0, [], [])

/-- Accumulation rule (lines 145–148). -/
def accumRule (ind : TechIndicators) : ℤ × List ScoringEntry × List String :=
  if ind.accumulation then
    (5, [⟨"Accumulation", 5, "Higher volume on up days"⟩],
     ["Signs of institutional accumulation"])
  else (0, [], [])

/-- Max-drawdown rule (lines 150–158). -/
def drawdownRule (ind : TechIndicators) : ℤ × List ScoringEntry × List String :=
  if ind.max_drawdown > -15 then
    (5, [⟨"Max Drawdown", 5, "Low drawdown (" ++ fmtDec ind.max_drawdown 1 ++ "%)"⟩],
     ["Low max drawdown (" ++ fmtDec ind.max_drawdown 1 ++ "%) shows resilience"])
  else if ind.max_drawdown < -40 then
    (-5, [⟨"Max Drawdown", -5, "High drawdown (" ++ fmtDec ind.max_drawdown 1 ++ "%)"⟩],
     ["Significant drawdown (" ++ fmtDec ind.max_drawdown 1 ++ "%) indicates risk"])
  else (0, [], [])

/-- MACD rule (lines 160–168): always fires, +5 (bullish) or −3 (bearish). -/
def macdRule (ind : TechIndicators) : ℤ × List ScoringEntry × List String :=
  if ind.macd_bullish then
    (5, [⟨"MACD", 5, "MACD above signal (Bullish)"⟩], ["MACD shows bullish momentum"])
  else
    (-3, [⟨"MACD", -3, "MACD below signal (Bearish)"⟩], ["MACD shows weakening momentum"])

/-- The pre-clamp score of the technical scorer: baseline 50 plus every rule's
delta, in source order. -/
def techRawScore (ind : TechIndicators) : ℤ :=
  50 + (trendRule ind).1 + (rsiRule ind).1 + (volRule ind).1 + (volumeRule ind).1
     + (accumRule ind).1 + (drawdownRule ind).1 + (macdRule ind).1

/-- The scoring and report-assembly section of `analyze_stock`
(lines 89–201). -/
def techScore (symbol : String) (ind : TechIndicators) : Report :=
  let scoring_log : List ScoringEntry :=
    ⟨"Starting Base", 50, "Neutral starting position"⟩ ::
      ((trendRule ind).2.1 ++ (rsiRule ind).2.1 ++ (volRule ind).2.1 ++
       (volumeRule ind).2.1 ++ (accumRule ind).2.1 ++ (drawdownRule ind).2.1 ++
       (macdRule ind).2.1)
  let parts : List String :=
    (trendRule ind).2.2 ++ (rsiRule ind).2.2 ++ (volRule ind).2.2 ++ perfParts ind ++
      (volumeRule ind).2.2 ++ (accumRule ind).2.2 ++ (drawdownRule ind).2.2 ++
      (macdRule ind).2.2
  -- Normalize score to 0-100 range (line 173)
  let score : ℤ := min 100 (max 0 (techRawScore ind))
  let signal := if 60 ≤ score then "BUY" else "SELL"
  { symbol := symbol
    signal := signal
    confidence := score
    score := score
    reasoning := String.intercalate ". " parts ++ "."
    scoring_log := some scoring_log
    metrics :=
      [("current_price", .num (pyRound ind.current_price 2)),
       ("sma_200", .num (pyRound ind.sma_200 2)),
       ("sma_50", .num (pyRound ind.sma_50 2)),
       ("rsi_weekly",
         match ind.rsi_weekly with
         | some r => .num (pyRound r 2)
         | none => .str "NaN"),
       ("volatility_1y", .num (pyRound ind.volatility 2)),
       ("return_1y", .num (pyRound ind.return_1y 2)),
       ("volume_ratio", .num (pyRound ind.volume_ratio 2)),
       ("max_drawdown", .num (pyRound ind.max_drawdown 2)),
       ("macd_signal", .str (if ind.macd_bullish then "Bullish" else "Bearish"))]
    company_info := none }

/-- One daily bar of `stock.history(...)`.  `week` is the calendar-week
identifier of the session's date, used to model `resample('W')` (pandas bins
the dated rows by calendar week). -/
structure Bar where
  week : ℤ
  Open : ℚ
  Close : ℚ
  Volume : ℚ
deriving DecidableEq

/-- The last `n` elements of a list (`rolling(n)....iloc[-1]` windows). -/
def takeLast (n : ℕ) (l : List ℚ) : List ℚ := l.drop (l.length - n)

/-- Arithmetic mean; on `[]` this is `0/0 = 0` in `ℚ` (only used on nonempty
lists, or behind the explicit emptiness guards the source has). -/
def qMean (l : List ℚ) : ℚ := l.sum / l.length

/-- `resample('W').last()` on the close column: last close of each run of
sessions sharing a calendar week, in chronological order.  (Real exchange data
has no empty week bins; pandas would insert `NaN` rows for those.) -/
def weeklyLast : List Bar → List ℚ
  | [] => []
  | [b] => [b.Close]
  | b :: b' :: bs =>
    if b.week = b'.week then weeklyLast (b' :: bs)
    else b.Close :: weeklyLast (b' :: bs)

/-- `series.diff().dropna()`: consecutive differences. -/
def diffs : List ℚ → List ℚ
  | [] => []
  | [_] => []
  | a :: b :: r => (b - a) :: diffs (b :: r)

/-- `series.pct_change().dropna()`: consecutive relative changes.  A zero
previous value yields `0` here where pandas would produce `±inf`; the claims
never depend on that degenerate case (closes are positive prices). -/
def pctChanges : List ℚ → List ℚ
  | [] => []
  | [_] => []
  | a :: b :: r => ((b - a) / a) :: pctChanges (b :: r)

/-- Sample variance with `ddof=1` (pandas `std()` squared). -/
def sampleVar (l : List ℚ) : ℚ :=
  if l.length ≤ 1 then 0
  else
    let m := qMean l
    ((l.map (fun x => (x - m) ^ 2)).sum) / (l.length - 1 : ℕ)

/-- Rational floor approximation of `√q` (`√(n/d) = √(n·d)/d`).  The Python
code computes a binary-float approximation of the same irrational square root;
no claim depends on the approximation error.  Negative input yields 0. -/
def ratSqrt (q : ℚ) : ℚ :=
  if q ≤ 0 then 0 else (Nat.sqrt (q.num.toNat * q.den) : ℚ) / (q.den : ℚ)

/-- `ewm(span, adjust=False).mean()` recurrence with `α` and previous value
`y`: `yₜ = α·xₜ + (1−α)·yₜ₋₁`. -/
def ewmFrom (α : ℚ) (y : ℚ) : List ℚ → List ℚ
  | [] => []
  | x :: xs =>
    let y' := α * x + (1 - α) * y
    y' :: ewmFrom α y' xs

/-- `series.ewm(span=s, adjust=False).mean()` with `α = 2/(s+1)`; the first
output equals the first input. -/
def ewmList (α : ℚ) : List ℚ → List ℚ
  | [] => []
  | x :: xs => x :: ewmFrom α x xs

/-- `rolling(window=252, min_periods=1).max()`: trailing 252-session running
maximum at each index. -/
def rollMax252 (closes : List ℚ) : List ℚ :=
  (List.range closes.length).map fun i =>
    let w := (closes.take (i + 1)).drop (i + 1 - 252)
    w.foldl max (w.headD 0)

/-- The indicator-derivation section of `analyze_stock` (lines 34–87),
translated indicator by indicator.  Only called on histories of length ≥ 200
(the guard of line 25), where every rolling window the source reads is full. -/
def computeIndicators (hist : List Bar) : TechIndicators :=
  let closes := hist.map (·.Close)
  let current_price := closes.getLastD 0
  -- 200-day and 50-day simple moving averages (last rolling value)
  let sma_200 := qMean (takeLast 200 closes)
  let sma_50 := qMean (takeLast 50 closes)
  -- Weekly RSI: 14-period average gain / average loss on weekly closes.
  -- `none` models the NaN cases (short history, or 0/0); `loss = 0` with
  -- positive gain gives `rs = inf` and hence RSI `100`, as in pandas.
  let wdeltas := diffs (weeklyLast hist)
  let rsi_weekly : Option ℚ :=
    if wdeltas.length < 14 then none
    else
      let g := qMean (takeLast 14 (wdeltas.map fun x => if x > 0 then x else 0))
      let l := qMean (takeLast 14 (wdeltas.map fun x => if x < 0 then -x else 0))
      if l = 0 then (if g = 0 then none else some 100)
      else some (100 - 100 / (1 + g / l))
  -- Annualized volatility: std of daily returns × √252 × 100
  let daily_returns := pctChanges closes
  let volatility := ratSqrt (sampleVar daily_returns * 252) * 100
  -- 1-year return
  let price_1y_ago :=
    if 252 ≤ hist.length then closes.getD (closes.length - 252) 0 else closes.headD 0
  let return_1y := (current_price - price_1y_ago) / price_1y_ago * 100
  -- Volume analysis
  let vols := hist.map (·.Volume)
  let avg_volume_50 := qMean (takeLast 50 vols)
  let recent_volume := qMean (takeLast 5 vols)
  let volume_ratio := if avg_volume_50 > 0 then recent_volume / avg_volume_50 else 1
  let recent20 := hist.drop (hist.length - 20)
  let up_days := recent20.filter fun b => b.Close > b.Open
  let down_days := recent20.filter fun b => b.Close ≤ b.Open
  let avg_up_volume := if up_days.length > 0 then qMean (up_days.map (·.Volume)) else 0
  let avg_down_volume := if down_days.length > 0 then qMean (down_days.map (·.Volume)) else 0
  let accumulation := avg_up_volume > avg_down_volume * 1.2
  -- Max drawdown over the trailing 252-session running maximum
  let drawdowns := List.zipWith (fun c rm => (c - rm) / rm * 100) closes (rollMax252 closes)
  let max_drawdown := drawdowns.foldl min (drawdowns.headD 0)
  -- MACD 12/26 with 9-period signal line
  let macd_line := List.zipWith (· - ·) (ewmList (2/13) closes) (ewmList (2/27) closes)
  let signal_line := ewmList (2/10) macd_line
  let macd_bullish := macd_line.getLastD 0 > signal_line.getLastD 0
  { current_price := current_price
    sma_200 := sma_200
    sma_50 := sma_50
    rsi_weekly := rsi_weekly
    volatility := volatility
    return_1y := return_1y
    volume_ratio := volume_ratio
    accumulation := accumulation
    max_drawdown := max_drawdown
    macd_bullish := macd_bullish }

/-- `analyze_stock(symbol)` (lines 14–208): the guard of line 25 returns the
failure record when fewer than 200 sessions are available (the `stderr` log
line is an I/O side effect, not modelled); otherwise the scoring always
produces a success record. -/
def analyze_stock (symbol : String) (hist : List Bar) : ScoreOutcome :=
  if hist.isEmpty || hist.length < 200 then
    .fail ("Insufficient historical data (need 1 year+) for " ++ symbol)
  else
    .ok (techScore symbol (computeIndicators hist))

/-! ## Debate orchestrator (`src/agents/orchestration_agent.py`) -/

structure DialogueEntry where
  speaker : String
  message : String
deriving DecidableEq

structure DebateResult where
  transcript : List DialogueEntry
  final_score : ℚ
  final_signal : String
deriving DecidableEq

/-- One side's input dict to `DebateSimulator`: `app.py` passes each scorer's
report dict, of which `run_debate` reads only `score`, `reasoning` and
`metrics` (the `dict.get` defaults apply to absent keys, which success reports
always carry). -/
structure DebateInput where
  score : ℤ
  reasoning : String
  metrics : List (String × MetricVal)
deriving DecidableEq

/-- The three-way early signal of lines 21–27, identical for both sides. -/
def debateSignal (s : ℤ) : String :=
  if 60 ≤ s then "BUY" else if s ≤ 40 then "SELL" else "HOLD"

/-- Risk-label selection of lines 96–99, in source priority order. -/
def riskMsg (f t : ℤ) : String :=
  if f < 40 then "Bankruptcy or earnings miss"
  else if t < 40 then "Trend breakdown"
  else if f > 80 ∧ t > 80 then "Overvaluation pullbacks"
  else "Market volatility"

/-- `DebateSimulator.run_debate` (lines 19–123). -/
def run_debate (fund tech : DebateInput) : DebateResult :=
  let f := fund.score
  let t := tech.score
  let fund_signal := debateSignal f
  let tech_signal := debateSignal t
  -- Round 1: opening statements
  let fund_msg :=
    if 60 ≤ f then "This company is a powerhouse. " ++ fund.reasoning
    else if f ≤ 40 then "I cannot recommend this. " ++ fund.reasoning
    else "It's a mixed bag. " ++ fund.reasoning
  let tech_msg :=
    if 60 ≤ t then "The charts agree. " ++ tech.reasoning
    else if t ≤ 40 then "Price action is dangerous. " ++ tech.reasoning
    else "Price is chopping sideways. " ++ tech.reasoning
  -- Rounds 2–4 run only if the agents disagree
  let debateRounds : List DialogueEntry :=
    if fund_signal = tech_signal then [] else
      let fundAttack :=
        if t > f then
          "You're chasing lines on a chart! Look at the valuation. Ideally we want value, not just momentum."
        else
          match tech.metrics.lookup "RSI" with
          | some v =>
            if v.toFloat > 70 then "RSI is overbought. You're buying the top!"
            else "Technical patterns can fail. Show me the cash flow backing this move."
          | none => "Technical patterns can fail. Show me the cash flow backing this move."
      let techAttack :=
        if f > t then
          "Valuation takes years to play out. The trend is NOW. Don't fight the tape!"
        else
          match fund.metrics.lookup "P/E" with
          | some v =>
            if v.toFloat > 50 then
              "With that P/E? Good luck waiting for earnings to catch up. The market votes with price."
            else "Fundamentals are lagging indicators. By the time they look good, the move is over."
          | none => "Fundamentals are lagging indicators. By the time they look good, the move is over."
      [⟨"Fundamental Agent", fundAttack⟩,
       ⟨"Technical Agent", techAttack⟩,
       ⟨"Fundamental Agent",
        "Quality wins in the end. My score of " ++ toString f ++ " reflects business reality."⟩,
       ⟨"Technical Agent",
        "Price is reality. My score of " ++ toString t ++ " reflects supply and demand."⟩,
       ⟨"Moderator", "Agents, what is the biggest risk here?"⟩,
       ⟨"Joint Statement", "Agreed. The main risk is " ++ riskMsg f t ++ "."⟩]
  -- Round 5: closing & vote
  let final_score : ℚ := (f : ℚ) * 0.6 + (t : ℚ) * 0.4
  let decision :=
    if 65 ≤ final_score then "BUY" else if final_score ≤ 35 then "SELL" else "HOLD"
  let conclusion :=
    if fund_signal = tech_signal then
      "We are in agreement. " ++ decision ++ " signal confirmed by both agents." ++
        " Final Weighted Score: " ++ fmtDec final_score 1 ++ "."
    else
      "After debate, we lean towards " ++ decision ++ ". Final Weighted Score: " ++
        fmtDec final_score 1 ++ "."
  { transcript :=
      ⟨"Fundamental Agent", fund_msg⟩ :: ⟨"Technical Agent", tech_msg⟩ ::
        (debateRounds ++ [⟨"Orchestrator", conclusion⟩])
    final_score := pyRound final_score 1
    final_signal := decision }

/-- Sum of the `points` fields of a `scoring_log`. -/
def sumPoints (l : List ScoringEntry) : ℤ := (l.map (·.points)).sum

/-! ## Concrete inputs used by counterexamples and witnesses -/

/-- The fundamentals snapshot of the spec's scenario: ROE 20%, net margin 18%,
D/E 0.3, P/E 12, revenue growth 15%. -/
def c6Info : FundInfo :=
  { returnOnEquity := some 0.2
    profitMargins := some 0.18
    debtToEquity := some 0.3
    trailingPE := some 12
    revenueGrowth := some 0.15 }

/-- A snapshot on which every fundamental rule fires negatively:
ROE 5%, margin 2%, D/E 2.0, P/E −5, revenue growth −5%. -/
def badInfo : FundInfo :=
  { returnOnEquity := some 0.05
    profitMargins := some 0.02
    debtToEquity := some 2
    trailingPE := some (-5)
    revenueGrowth := some (-0.05) }

/-- Indicators matching the spec's technical scenario (price below its
200-session average, weekly RSI 50, volatility 15%, flat volume), with a
shallow max drawdown and a bearish MACD. -/
def c7Ind : TechIndicators :=
  { current_price := 90
    sma_200 := 100
    sma_50 := 95
    rsi_weekly := some 50
    volatility := 15
    return_1y := -5
    volume_ratio := 1
    accumulation := false
    max_drawdown := -10
    macd_bullish := false }

/-- Indicators whose technical score is 47 (HOLD at the debate's three-way
threshold), used to exercise the cross-examination round. -/
def c10Ind : TechIndicators :=
  { current_price := 95
    sma_200 := 100
    sma_50 := 90
    rsi_weekly := some 45
    volatility := 18
    return_1y := -2
    volume_ratio := 1
    accumulation := false
    max_drawdown := -20
    macd_bullish := false }

/-! ## Helper lemmas -/

theorem pyRoundInt_intCast (n : ℤ) : pyRoundInt (n : ℚ) = n := by
  unfold pyRoundInt
  rw [Int.floor_intCast]
  norm_num

/-- For integer scores the weighted closing vote is an exact multiple of 0.1,
so Python's `round(·, 1)` returns it unchanged. -/
theorem pyRound_weighted_exact (f t : ℤ) :
    pyRound ((f : ℚ) * 0.6 + (t : ℚ) * 0.4) 1 = (f : ℚ) * 0.6 + (t : ℚ) * 0.4 := by
  unfold pyRound
  have h : ((f : ℚ) * 0.6 + (t : ℚ) * 0.4) * 10 ^ 1 = ((6 * f + 4 * t : ℤ) : ℚ) := by
    push_cast
    ring
  rw [h, pyRoundInt_intCast]
  push_cast
  ring

theorem signal_iff (s : ℤ) : (if 60 ≤ s then "BUY" else "SELL") = "BUY" ↔ 60 ≤ s := by
  by_cases h : 60 ≤ s
  · simp [h]
  · rw [if_neg h]
    constructor
    · intro hc
      exact absurd hc (by decide)
    · intro hc
      exact absurd hc h

theorem sumPoints_cons (e : ScoringEntry) (l : List ScoringEntry) :
    sumPoints (e :: l) = e.points + sumPoints l := by
  simp [sumPoints]

theorem sumPoints_append (l₁ l₂ : List ScoringEntry) :
    sumPoints (l₁ ++ l₂) = sumPoints l₁ + sumPoints l₂ := by
  simp [sumPoints]

theorem sumPoints_trendRule (ind : TechIndicators) :
    sumPoints (trendRule ind).2.1 = (trendRule ind).1 := by
  unfold trendRule
  split_ifs <;> rfl

theorem sumPoints_rsiRule (ind : TechIndicators) :
    sumPoints (rsiRule ind).2.1 = (rsiRule ind).1 := by
  unfold rsiRule
  rcases ind.rsi_weekly with _ | r
  · rfl
  · simp only
    split_ifs <;> rfl

theorem sumPoints_volRule (ind : TechIndicators) :
    sumPoints (volRule ind).2.1 = (volRule ind).1 := by
  unfold volRule
  split_ifs <;> rfl

theorem sumPoints_volumeRule (ind : TechIndicators) :
    sumPoints (volumeRule ind).2.1 = (volumeRule ind).1 := by
  unfold volumeRule
  split_ifs <;> rfl

theorem sumPoints_accumRule (ind : TechIndicators) :
    sumPoints (accumRule ind).2.1 = (accumRule ind).1 := by
  unfold accumRule
  split_ifs <;> rfl

theorem sumPoints_drawdownRule (ind : TechIndicators) :
    sumPoints (drawdownRule ind).2.1 = (drawdownRule ind).1 := by
  unfold drawdownRule
  split_ifs <;> rfl

theorem sumPoints_macdRule (ind : TechIndicators) :
    sumPoints (macdRule ind).2.1 = (macdRule ind).1 := by
  unfold macdRule
  split_ifs <;> rfl

theorem techScore_score (sym : String) (ind : TechIndicators) :
    (techScore sym ind).score = min 100 (max 0 (techRawScore ind)) := rfl

theorem techScore_signal (sym : String) (ind : TechIndicators) :
    (techScore sym ind).signal =
      (if 60 ≤ (techScore sym ind).score then "BUY" else "SELL") := rfl

theorem techScore_log (sym : String) (ind : TechIndicators) :
    (techScore sym ind).scoring_log = some
      (⟨"Starting Base", 50, "Neutral starting position"⟩ ::
        ((trendRule ind).2.1 ++ (rsiRule ind).2.1 ++ (volRule ind).2.1 ++
         (volumeRule ind).2.1 ++ (accumRule ind).2.1 ++ (drawdownRule ind).2.1 ++
         (macdRule ind).2.1)) := rfl

end EquityAnalyst

namespace EquityAnalyst

/-! ## Claims -/

/-- C1: for every pair of ScoreReports with scores `fund` and `tech`, the
orchestrator's final verdict has `final_score = round(0.6*fund + 0.4*tech, 1)`
(fundamental weighted 0.6, technical 0.4, rounded to one decimal); moreover on
the integer scores the scorers produce, that rounding is exact. -/
theorem C1_final_score_weighted (fund tech : DebateInput) :
    (run_debate fund tech).final_score =
      pyRound ((0.6 : ℚ) * (fund.score : ℚ) + 0.4 * (tech.score : ℚ)) 1 ∧
    pyRound ((0.6 : ℚ) * (fund.score : ℚ) + 0.4 * (tech.score : ℚ)) 1 =
      0.6 * (fund.score : ℚ) + 0.4 * (tech.score : ℚ) := by
  have hcomm : (0.6 : ℚ) * (fund.score : ℚ) + 0.4 * (tech.score : ℚ)
      = (fund.score : ℚ) * 0.6 + (tech.score : ℚ) * 0.4 := by ring
  constructor
  · show pyRound ((fund.score : ℚ) * 0.6 + (tech.score : ℚ) * 0.4) 1 = _
    rw [hcomm]
  · rw [hcomm, pyRound_weighted_exact]

/-- C2 counterexample: the claim "both scorers return `score ∈ [0,100]`
(clamped)" is false for the fundamental scorer, whose `score` field is
returned unclamped: on a snapshot where every rule fires negatively the
successful report carries `score = -15 ∉ [0,100]`. -/
theorem C2_cex_fundamental_score_below_zero :
    (analyze_fundamentals "BADCO" (some badInfo)).score? = some (-15) ∧
    ¬(0 ≤ (-15 : ℤ) ∧ (-15 : ℤ) ≤ 100) := by
  constructor
  · norm_num [analyze_fundamentals, fundReport, fundEval, badInfo, pyOrQ, ScoreOutcome.score?]
  · decide

/-- C2 (amended): the technical scorer's `score` is clamped to `[0,100]` and
its `signal` is BUY iff `score ≥ 60`; the fundamental scorer's `signal` is
likewise BUY iff `score ≥ 60` and its `confidence` is clamped to `[0,100]`,
but its `score` field itself is the unclamped rule sum. -/
theorem C2_amended_clamping (sym : String) (i : FundInfo) (ind : TechIndicators) :
    (0 ≤ (techScore sym ind).score ∧ (techScore sym ind).score ≤ 100) ∧
    ((techScore sym ind).signal = "BUY" ↔ 60 ≤ (techScore sym ind).score) ∧
    ((fundReport sym i).signal = "BUY" ↔ 60 ≤ (fundReport sym i).score) ∧
    (0 ≤ (fundReport sym i).confidence ∧ (fundReport sym i).confidence ≤ 100) := by
  refine ⟨?_, ?_, ?_, ?_⟩
  · rw [techScore_score]
    omega
  · rw [techScore_signal]
    exact signal_iff _
  · rcases he : fundEval i with ⟨s, p, m⟩
    have h1 : (fundReport sym i).signal = (if 60 ≤ s then "BUY" else "SELL") := by
      simp [fundReport, he]
    have h2 : (fundReport sym i).score = s := by
      simp [fundReport, he]
    rw [h1, h2]
    exact signal_iff s
  · rcases he : fundEval i with ⟨s, p, m⟩
    have h3 : (fundReport sym i).confidence = min 100 (max 0 s) := by
      simp [fundReport, he]
    rw [h3]
    omega

/-- C6 counterexample: on the scenario snapshot (ROE 20%, margin 18%, D/E 0.3,
P/E 12, revenue growth 15%) the fundamental scorer accumulates
50+15+10+10+10+10 = 105, but the returned `score` is 105, not clamped to
100 as the claim states. -/
theorem C6_cex_score_not_clamped :
    (analyze_fundamentals "GROWCO" (some c6Info)).score? = some 105 ∧
    ¬((105 : ℤ) ≤ 100) := by
  constructor
  · norm_num [analyze_fundamentals, fundReport, fundEval, c6Info, pyOrQ, ScoreOutcome.score?]
  · decide

/-- C6 (amended): on the scenario snapshot the fundamental scorer accumulates
50+15+10+10+10+10 = 105 and returns `score = 105` unclamped, with
`signal = BUY` and `confidence` clamped to 100. -/
theorem C6_amended_unclamped_105 :
    (analyze_fundamentals "GROWCO" (some c6Info)).score? = some 105 ∧
    (analyze_fundamentals "GROWCO" (some c6Info)).signal? = some "BUY" ∧
    (analyze_fundamentals "GROWCO" (some c6Info)).confidence? = some 100 := by
  refine ⟨?_, ?_, ?_⟩ <;>
    norm_num [analyze_fundamentals, fundReport, fundEval, c6Info, pyOrQ,
      ScoreOutcome.score?, ScoreOutcome.signal?, ScoreOutcome.confidence?]


/-- C3 counterexample: the claim "every successful ScoreReport contains a
scoring_log" is false for the fundamental scorer: a successful fundamental
report carries no `scoring_log` key at all. -/
theorem C3_cex_fund_no_scoring_log :
    (analyze_fundamentals "NODATA" (some ({} : FundInfo))).success = true ∧
    (analyze_fundamentals "NODATA" (some ({} : FundInfo))).log? = some none :=
  ⟨rfl, rfl⟩

/-- C3 (amended): only the technical scorer emits a `scoring_log`; its first
entry is the 50-point "Starting Base" itself, the sum of all logged points
(baseline entry included) equals the pre-clamp score, the final score is that
sum clamped to [0,100], and the signal is a function of the final score alone.
The fundamental report has no `scoring_log`. -/
theorem C3_amended_scoring_log_invariant (sym : String) (ind : TechIndicators) (i : FundInfo) :
    (∃ log, (techScore sym ind).scoring_log = some log ∧
      sumPoints log = techRawScore ind ∧
      (techScore sym ind).score = min 100 (max 0 (sumPoints log))) ∧
    ((techScore sym ind).signal =
      (if 60 ≤ (techScore sym ind).score then "BUY" else "SELL")) ∧
    (fundReport sym i).scoring_log = none := by
  have hsum : sumPoints (⟨"Starting Base", 50, "Neutral starting position"⟩ ::
      ((trendRule ind).2.1 ++ (rsiRule ind).2.1 ++ (volRule ind).2.1 ++
       (volumeRule ind).2.1 ++ (accumRule ind).2.1 ++ (drawdownRule ind).2.1 ++
       (macdRule ind).2.1)) = techRawScore ind := by
    simp only [sumPoints_cons, sumPoints_append, sumPoints_trendRule, sumPoints_rsiRule,
      sumPoints_volRule, sumPoints_volumeRule, sumPoints_accumRule, sumPoints_drawdownRule,
      sumPoints_macdRule, techRawScore]
    ring
  refine ⟨⟨_, techScore_log sym ind, hsum, ?_⟩, techScore_signal sym ind, ?_⟩
  · rw [hsum, techScore_score]
  · rcases he : fundEval i with ⟨s, p, m⟩
    simp [fundReport, he]

/-- C4 counterexample: the claim "the transcript has 9 to 11 entries per run"
fails when the two signals agree: with both scores 80 (both BUY) the debate
rounds are skipped and the transcript has exactly 3 entries. -/
theorem C4_cex_agreement_transcript_length_3 :
    (run_debate ⟨80, "strong", []⟩ ⟨80, "bullish", []⟩).transcript.length = 3 ∧
    ¬(9 ≤ 3) := ⟨rfl, by decide⟩

/-- C4 (amended): the transcript is 2 opening entries, then — only when the
two three-way signals disagree — 2 attack, 2 defense and 2 risk entries, then
1 closing entry: 9 entries on disagreement, 3 on agreement, in fixed round
order. -/
theorem C4_amended_transcript_shape (fund tech : DebateInput) :
    (run_debate fund tech).transcript.map DialogueEntry.speaker =
      (if debateSignal fund.score = debateSignal tech.score then
        ["Fundamental Agent", "Technical Agent", "Orchestrator"]
      else
        ["Fundamental Agent", "Technical Agent", "Fundamental Agent", "Technical Agent",
         "Fundamental Agent", "Technical Agent", "Moderator", "Joint Statement",
         "Orchestrator"]) ∧
    (run_debate fund tech).transcript.length =
      (if debateSignal fund.score = debateSignal tech.score then 3 else 9) := by
  by_cases h : debateSignal fund.score = debateSignal tech.score <;>
    simp [run_debate, h]

/-- C5: the orchestrator's final signal is BUY when `final_score ≥ 65`, SELL
when `final_score ≤ 35`, HOLD otherwise; in particular 65.0 → BUY,
35.0 → SELL, 50.0 → HOLD, and fund 80 / tech 40 gives exactly 64.0 → HOLD. -/
theorem C5_final_signal_thresholds (fund tech : DebateInput) :
    ((run_debate fund tech).final_signal =
      (if 65 ≤ (run_debate fund tech).final_score then "BUY"
       else if (run_debate fund tech).final_score ≤ 35 then "SELL" else "HOLD")) ∧
    (run_debate ⟨65, "", []⟩ ⟨65, "", []⟩).final_score = 65 ∧
    (run_debate ⟨65, "", []⟩ ⟨65, "", []⟩).final_signal = "BUY" ∧
    (run_debate ⟨35, "", []⟩ ⟨35, "", []⟩).final_score = 35 ∧
    (run_debate ⟨35, "", []⟩ ⟨35, "", []⟩).final_signal = "SELL" ∧
    (run_debate ⟨50, "", []⟩ ⟨50, "", []⟩).final_score = 50 ∧
    (run_debate ⟨50, "", []⟩ ⟨50, "", []⟩).final_signal = "HOLD" ∧
    (run_debate ⟨80, "", []⟩ ⟨40, "", []⟩).final_score = 64 ∧
    (run_debate ⟨80, "", []⟩ ⟨40, "", []⟩).final_signal = "HOLD" := by
  refine ⟨?_, ?_, ?_, ?_, ?_, ?_, ?_, ?_, ?_⟩
  · have hfs : (run_debate fund tech).final_score
        = (fund.score : ℚ) * 0.6 + (tech.score : ℚ) * 0.4 := pyRound_weighted_exact _ _
    rw [hfs]
    rfl
  · norm_num [run_debate, pyRound, pyRoundInt]
  · norm_num [run_debate]
  · norm_num [run_debate, pyRound, pyRoundInt]
  · norm_num [run_debate]
  · norm_num [run_debate, pyRound, pyRoundInt]
  · norm_num [run_debate]
  · norm_num [run_debate, pyRound, pyRoundInt]
  · norm_num [run_debate]


/-- C7 counterexample: on indicators satisfying the scenario (price below the
200-session average, weekly RSI 50, volatility 15%, flat volume — ratio 1, no
accumulation) with a shallow drawdown and bearish MACD, the technical score is
50−20+10+10+5−3 = 52, not the claimed 50: the claim omits the always-firing
MACD rule (+5/−3) and the drawdown rule. -/
theorem C7_cex_scenario_score_52 :
    c7Ind.current_price < c7Ind.sma_200 ∧ c7Ind.rsi_weekly = some 50 ∧
    c7Ind.volatility = 15 ∧ c7Ind.volume_ratio = 1 ∧ c7Ind.accumulation = false ∧
    (techScore "TECHY" c7Ind).score = 52 ∧ ¬((52 : ℤ) = 50) := by
  refine ⟨by norm_num [c7Ind], rfl, rfl, rfl, rfl, ?_, by decide⟩
  norm_num [techScore, techRawScore, trendRule, rsiRule, volRule, volumeRule, accumRule,
    drawdownRule, macdRule, c7Ind]

/-- C7 (amended): under the scenario the trend, RSI and volatility rules
contribute −20, +10 and +10 as the claim says, but the drawdown and MACD rules
(which the claim omits; MACD always fires) also contribute:
`score = 50 + drawdownDelta + macdDelta`, and the signal is SELL except when
the drawdown is shallower than −15% and MACD is bullish (score 60, BUY). -/
theorem C7_amended_scenario_score (sym : String) (ind : TechIndicators)
    (h1 : ind.current_price < ind.sma_200) (h2 : ind.rsi_weekly = some 50)
    (h3 : ind.volatility = 15) (h4 : ind.volume_ratio = 1)
    (h5 : ind.accumulation = false) :
    (techScore sym ind).score = 50 + (drawdownRule ind).1 + (macdRule ind).1 ∧
    ((techScore sym ind).signal =
      (if ind.max_drawdown > -15 ∧ ind.macd_bullish then "BUY" else "SELL")) := by
  have ht : (trendRule ind).1 = -20 := by
    have hng : ¬ind.current_price > ind.sma_200 := not_lt.mpr h1.le
    simp [trendRule, hng]
  have hr : (rsiRule ind).1 = 10 := by
    norm_num [rsiRule, h2]
  have hv : (volRule ind).1 = 10 := by
    norm_num [volRule, h3]
  have hvr : (volumeRule ind).1 = 0 := by
    norm_num [volumeRule, h4]
  have hac : (accumRule ind).1 = 0 := by
    simp [accumRule, h5]
  have hdd : (drawdownRule ind).1 = 5 ∨ (drawdownRule ind).1 = 0 ∨
      (drawdownRule ind).1 = -5 := by
    unfold drawdownRule
    split_ifs <;> simp
  have hmc : (macdRule ind).1 = 5 ∨ (macdRule ind).1 = -3 := by
    unfold macdRule
    split_ifs <;> simp
  constructor
  · rw [techScore_score, techRawScore, ht, hr, hv, hvr, hac]
    rcases hdd with h | h | h <;> rcases hmc with h' | h' <;> rw [h, h'] <;> decide
  · rw [techScore_signal, techScore_score, techRawScore, ht, hr, hv, hvr, hac]
    by_cases hd : ind.max_drawdown > -15
    · by_cases hm : ind.macd_bullish
      · norm_num [drawdownRule, macdRule, hd, hm]
      · norm_num [drawdownRule, macdRule, hd, hm]
    · by_cases hm : ind.macd_bullish
      · by_cases hd2 : ind.max_drawdown < -40
        · norm_num [drawdownRule, macdRule, hd, hm, hd2]
        · norm_num [drawdownRule, macdRule, hd, hm, hd2]
      · by_cases hd2 : ind.max_drawdown < -40
        · norm_num [drawdownRule, macdRule, hd, hm, hd2]
        · norm_num [drawdownRule, macdRule, hd, hm, hd2]

/-- C7 witness: the amended statement instantiated at the concrete scenario
indicators `c7Ind`. -/
theorem C7_amended_scenario_score_witness :
    (techScore "TECHX" c7Ind).score = 50 + (drawdownRule c7Ind).1 + (macdRule c7Ind).1 ∧
    ((techScore "TECHX" c7Ind).signal =
      (if c7Ind.max_drawdown > -15 ∧ c7Ind.macd_bullish then "BUY" else "SELL")) :=
  C7_amended_scenario_score "TECHX" c7Ind (by norm_num [c7Ind]) rfl rfl rfl rfl

/-- C8: whenever the risk-assessment round is emitted (the signals disagree),
the Joint Statement announces exactly one risk label chosen by priority:
fundamental score < 40 ⇒ bankruptcy/earnings miss; else technical score < 40 ⇒
trend breakdown; else both scores > 80 ⇒ overvaluation pullback; else the
default market-volatility label. -/
theorem C8_risk_priority (fund tech : DebateInput)
    (h : debateSignal fund.score ≠ debateSignal tech.score) :
    (⟨"Joint Statement",
      "Agreed. The main risk is " ++ riskMsg fund.score tech.score ++ "."⟩ : DialogueEntry)
      ∈ (run_debate fund tech).transcript ∧
    (fund.score < 40 → riskMsg fund.score tech.score = "Bankruptcy or earnings miss") ∧
    (¬fund.score < 40 → tech.score < 40 →
      riskMsg fund.score tech.score = "Trend breakdown") ∧
    (¬fund.score < 40 → ¬tech.score < 40 → fund.score > 80 → tech.score > 80 →
      riskMsg fund.score tech.score = "Overvaluation pullbacks") ∧
    (¬fund.score < 40 → ¬tech.score < 40 → ¬(fund.score > 80 ∧ tech.score > 80) →
      riskMsg fund.score tech.score = "Market volatility") := by
  refine ⟨?_, ?_, ?_, ?_, ?_⟩
  · simp [run_debate, h]
  · intro h1
    simp [riskMsg, h1]
  · intro h1 h2
    simp [riskMsg, h1, h2]
  · intro h1 h2 h3 h4
    simp [riskMsg, h1, h2, h3, h4]
  · intro h1 h2 h3
    simp [riskMsg, h1, h2, h3]

/-- C8 witness: with fundamental score 30 (SELL) and technical score 60 (BUY)
the agents disagree, and the highest-priority label fires. -/
theorem C8_risk_priority_witness :
    riskMsg 30 60 = "Bankruptcy or earnings miss" ∧
    (⟨"Joint Statement", "Agreed. The main risk is " ++ riskMsg 30 60 ++ "."⟩ : DialogueEntry)
      ∈ (run_debate ⟨30, "", []⟩ ⟨60, "", []⟩).transcript := by
  have H := C8_risk_priority ⟨30, "", []⟩ ⟨60, "", []⟩ (by decide)
  exact ⟨H.2.1 (by decide), H.1⟩

/-- The guard of `analyze_stock` in terms of the session count alone
(`hist.empty` is subsumed by `len(hist) < 200`). -/
theorem analyze_stock_eq (sym : String) (hist : List Bar) :
    analyze_stock sym hist =
      if hist.length < 200 then
        .fail ("Insufficient historical data (need 1 year+) for " ++ sym)
      else .ok (techScore sym (computeIndicators hist)) := by
  unfold analyze_stock
  by_cases h : hist.length < 200
  · have hc : (hist.isEmpty || decide (hist.length < 200)) = true := by simp [h]
    simp [hc, h]
  · have hne : hist.isEmpty = false := by
      rcases hist with _ | _
      · simp at h
      · rfl
    have hc : (hist.isEmpty || decide (hist.length < 200)) = false := by simp [hne, h]
    simp only [hc, Bool.false_eq_true, if_false, if_neg h]

/-- C9: the technical scorer fails exactly when the history has fewer than 200
sessions (an empty history included), and the failure is the returned
`{success:false, error}` record — modelled by the `fail` constructor of
`ScoreOutcome`, a return value rather than an exception, so callers must check
`success` before reading `score`/`signal`. -/
theorem C9_insufficient_history (sym : String) (hist : List Bar) :
    ((analyze_stock sym hist).success = false ↔ hist.length < 200) ∧
    (hist.length < 200 →
      analyze_stock sym hist =
        .fail ("Insufficient historical data (need 1 year+) for " ++ sym)) := by
  rw [analyze_stock_eq]
  by_cases h : hist.length < 200
  · simp [h, ScoreOutcome.success]
  · simp [h, ScoreOutcome.success]

/-- C9 witness: the empty history fails with the error record, and a concrete
200-session history does not fail. -/
theorem C9_insufficient_history_witness :
    (analyze_stock "AAPL" [] =
      .fail "Insufficient historical data (need 1 year+) for AAPL") ∧
    ((analyze_stock "AAPL" (List.replicate 200 ⟨0, 1, 1, 1⟩)).success = false ↔
      (List.replicate 200 (⟨0, 1, 1, 1⟩ : Bar)).length < 200) := by
  constructor
  · exact (C9_insufficient_history "AAPL" []).2 (by decide)
  · exact (C9_insufficient_history "AAPL" _).1

/-- C10: the technical scorer's metrics use the key "rsi_weekly", never "RSI",
so the orchestrator's `'RSI' in tech_metrics` cross-examination branch (the
"RSI is overbought. You're buying the top!" attack) is unreachable for reports
the technical scorer actually produces: whenever the technical score is not
greater than the fundamental score (and the attack round runs at all), the
Fundamental Agent's attack is the generic rebuttal, whatever the RSI value. -/
theorem C10_rsi_attack_unreachable (sym : String) (ind : TechIndicators)
    (fund : DebateInput) :
    ((techScore sym ind).metrics.lookup "RSI" = none) ∧
    (debateSignal fund.score ≠ debateSignal (techScore sym ind).score →
     ¬((techScore sym ind).score > fund.score) →
     (run_debate fund
        ⟨(techScore sym ind).score, (techScore sym ind).reasoning,
         (techScore sym ind).metrics⟩).transcript[2]? =
       some ⟨"Fundamental Agent",
         "Technical patterns can fail. Show me the cash flow backing this move."⟩) := by
  have hlk : (techScore sym ind).metrics.lookup "RSI" = none := rfl
  refine ⟨hlk, ?_⟩
  intro hdis hng
  simp [run_debate, hdis, hng, hlk]

/-- C10 witness: a fundamental report scoring 80 (BUY) against concrete
technical indicators scoring 47 (HOLD): the sides disagree, the technical
score is lower, and the attack is the generic rebuttal. -/
theorem C10_rsi_attack_unreachable_witness :
    (run_debate ⟨80, "", []⟩
       ⟨(techScore "W" c10Ind).score, (techScore "W" c10Ind).reasoning,
        (techScore "W" c10Ind).metrics⟩).transcript[2]? =
      some ⟨"Fundamental Agent",
        "Technical patterns can fail. Show me the cash flow backing this move."⟩ := by
  have hs : (techScore "W" c10Ind).score = 47 := by
    norm_num [techScore, techRawScore, trendRule, rsiRule, volRule, volumeRule, accumRule,
      drawdownRule, macdRule, c10Ind]
  refine (C10_rsi_attack_unreachable "W" c10Ind ⟨80, "", []⟩).2 ?_ ?_
  · rw [hs]
    decide
  · rw [hs]
    decide

end EquityAnalyst
